import Mathlib

/-!
Verification of the viewport-navigation core of
`Architectural-Floor-Plan-Drawing` (`src/draw.py`).

The `BuildingPlanViewer` class keeps two pieces of view state:
the live matplotlib axis limits (`ax.get_xlim()` / `ax.get_ylim()`,
modelled here as `ViewerState.current`) and the saved reset target
(`self.x_limits` / `self.y_limits`, modelled as `ViewerState.home`).
Coordinates are modelled over `ℚ`: every arithmetic expression in the
source is translated literally (Python float arithmetic becomes exact
rational arithmetic).
-/

/-- A view window `(x_min, x_max, y_min, y_max)` in world coordinates:
the pair `ax.get_xlim()`, `ax.get_ylim()` of `draw.py`. -/
@[ext]
structure ViewBounds where
  x_min : ℚ
  x_max : ℚ
  y_min : ℚ
  y_max : ℚ
deriving Repr, DecidableEq

/-- Width of a view window, `xlim[1] - xlim[0]` in the source. -/
def ViewBounds.width (b : ViewBounds) : ℚ := b.x_max - b.x_min

/-- Height of a view window, `ylim[1] - ylim[0]` in the source. -/
def ViewBounds.height (b : ViewBounds) : ℚ := b.y_max - b.y_min

/-- Positivity invariant on a view window: strictly positive extent on
both axes. -/
def ViewBounds.posInv (b : ViewBounds) : Prop :=
  b.x_min < b.x_max ∧ b.y_min < b.y_max

instance (b : ViewBounds) : Decidable b.posInv := by
  unfold ViewBounds.posInv; infer_instance

/-- The mutable view state of `BuildingPlanViewer`: `current` is the live
axis limits, `home` is the stored `self.x_limits` / `self.y_limits`
pair used by `reset_view`. -/
@[ext]
structure ViewerState where
  current : ViewBounds
  home : ViewBounds
deriving Repr, DecidableEq

/-- Both the live window and the stored home window satisfy the
positivity invariant. -/
def validState (s : ViewerState) : Prop :=
  s.current.posInv ∧ s.home.posInv

instance (s : ViewerState) : Decidable (validState s) := by
  unfold validState; infer_instance

/-- Mouse-wheel direction of a matplotlib scroll event
(`event.button` in `on_scroll`). -/
inductive ScrollButton where
  | up
  | down
  | other
deriving Repr, DecidableEq

/-- The scale factor chosen by `on_scroll` from the wheel direction
(`draw.py` lines 202, 212-217): `base_scale = 1.1`; wheel up gives
`1 / base_scale`, wheel down gives `base_scale`, anything else `1`. -/
def scrollScaleFactor : ScrollButton → ℚ
  | ScrollButton.up => 1 / (11 / 10)
  | ScrollButton.down => 11 / 10
  | ScrollButton.other => 1

/-- A matplotlib scroll event as consumed by `on_scroll`: whether the
cursor is inside the plot axes (`event.inaxes == self.ax`), the world
coordinates under the cursor (`event.xdata` / `event.ydata`, which
matplotlib reports as `None` when unavailable), and the wheel
direction. -/
structure ScrollEvent where
  inaxes : Bool
  xdata : Option ℚ
  ydata : Option ℚ
  button : ScrollButton
deriving Repr, DecidableEq

/-- The cursor-anchored zoom arithmetic of `on_scroll`
(`draw.py` lines 219-226):

    new_width  = (cur_xlim[1] - cur_xlim[0]) * scale_factor
    new_height = (cur_ylim[1] - cur_ylim[0]) * scale_factor
    relx = (cur_xlim[1] - xdata) / (cur_xlim[1] - cur_xlim[0])
    rely = (cur_ylim[1] - ydata) / (cur_ylim[1] - cur_ylim[0])
    set_xlim([xdata - new_width * (1 - relx), xdata + new_width * relx])
    set_ylim([ydata - new_height * (1 - rely), ydata + new_height * rely])
-/
def zoomAtPoint (cur : ViewBounds) (xdata ydata scale_factor : ℚ) : ViewBounds :=
  let new_width := (cur.x_max - cur.x_min) * scale_factor
  let new_height := (cur.y_max - cur.y_min) * scale_factor
  let relx := (cur.x_max - xdata) / (cur.x_max - cur.x_min)
  let rely := (cur.y_max - ydata) / (cur.y_max - cur.y_min)
  { x_min := xdata - new_width * (1 - relx)
    x_max := xdata + new_width * relx
    y_min := ydata - new_height * (1 - rely)
    y_max := ydata + new_height * rely }

/-- The scroll handler `on_scroll` (`draw.py` lines 197-228): returns
unchanged when the event is outside the axes or when `xdata`/`ydata`
is `None`; otherwise applies the cursor-anchored zoom with the factor
selected by the wheel direction. Only the axis limits (`current`) are
written; `self.x_limits`/`self.y_limits` (`home`) are untouched. -/
def on_scroll (s : ViewerState) (e : ScrollEvent) : ViewerState :=
  if e.inaxes = false then s
  else
    match e.xdata, e.ydata with
    | some xdata, some ydata =>
        { s with current := zoomAtPoint s.current xdata ydata (scrollScaleFactor e.button) }
    | _, _ => s

/-- The center-preserving zoom arithmetic of `zoom`
(`draw.py` lines 247-261):

    x_center = (cur_xlim[0] + cur_xlim[1]) / 2
    y_center = (cur_ylim[0] + cur_ylim[1]) / 2
    new_width  = (cur_xlim[1] - cur_xlim[0]) * scale_factor
    new_height = (cur_ylim[1] - cur_ylim[0]) * scale_factor
    set_xlim([x_center - new_width / 2, x_center + new_width / 2])
    set_ylim([y_center - new_height / 2, y_center + new_height / 2])

The source applies `scale_factor` unconditionally: there is no
validation of the factor anywhere in the method. -/
def zoomBounds (cur : ViewBounds) (scale_factor : ℚ) : ViewBounds :=
  let x_center := (cur.x_min + cur.x_max) / 2
  let y_center := (cur.y_min + cur.y_max) / 2
  let new_width := (cur.x_max - cur.x_min) * scale_factor
  let new_height := (cur.y_max - cur.y_min) * scale_factor
  { x_min := x_center - new_width / 2
    x_max := x_center + new_width / 2
    y_min := y_center - new_height / 2
    y_max := y_center + new_height / 2 }

/-- The `zoom` method at the state level: writes the new axis limits,
leaves the stored home limits alone. -/
def zoom (s : ViewerState) (scale_factor : ℚ) : ViewerState :=
  { s with current := zoomBounds s.current scale_factor }

/-- The translation arithmetic of `pan` (`draw.py` lines 263-274):

    width  = cur_xlim[1] - cur_xlim[0]
    height = cur_ylim[1] - cur_ylim[0]
    set_xlim([cur_xlim[0] + dx * width, cur_xlim[1] + dx * width])
    set_ylim([cur_ylim[0] + dy * height, cur_ylim[1] + dy * height])
-/
def panBounds (cur : ViewBounds) (dx dy : ℚ) : ViewBounds :=
  let width := cur.x_max - cur.x_min
  let height := cur.y_max - cur.y_min
  { x_min := cur.x_min + dx * width
    x_max := cur.x_max + dx * width
    y_min := cur.y_min + dy * height
    y_max := cur.y_max + dy * height }

/-- The `pan` method at the state level. -/
def pan (s : ViewerState) (dx dy : ℚ) : ViewerState :=
  { s with current := panBounds s.current dx dy }

/-- The `reset_view` method (`draw.py` lines 276-280): restores the axis
limits from the stored `self.x_limits` / `self.y_limits`. -/
def reset_view (s : ViewerState) : ViewerState :=
  { s with current := s.home }

/-- The `set_initial_view` method (`draw.py` lines 168-195): reads the
current axis limits, builds a window of `current_width * zoom_level`
by `current_height * zoom_level` centered at `center`, sets it as the
axis limits, and then overwrites `self.x_limits` / `self.y_limits`
from the freshly set limits — so `home` becomes the override window
too. -/
def set_initial_view (s : ViewerState) (center : ℚ × ℚ) (zoom_level : ℚ) : ViewerState :=
  let x_center := center.1
  let y_center := center.2
  let current_width := s.current.x_max - s.current.x_min
  let current_height := s.current.y_max - s.current.y_min
  let new_width := current_width * zoom_level
  let new_height := current_height * zoom_level
  let nb : ViewBounds :=
    { x_min := x_center - new_width / 2
      x_max := x_center + new_width / 2
      y_min := y_center - new_height / 2
      y_max := y_center + new_height / 2 }
  { current := nb, home := nb }

/-- The key handler `on_key_press` (`draw.py` lines 230-245):
`r`/`R` resets, `+`/`=` zooms by `1.2`, `-` zooms by `0.8`, arrow keys
pan by a tenth of the current extent; any other key is ignored. -/
def on_key_press (s : ViewerState) (key : String) : ViewerState :=
  if key = "r" ∨ key = "R" then reset_view s
  else if key = "+" ∨ key = "=" then zoom s (12 / 10)
  else if key = "-" then zoom s (8 / 10)
  else if key = "up" then pan s 0 (1 / 10)
  else if key = "down" then pan s 0 (-(1 / 10))
  else if key = "left" then pan s (-(1 / 10)) 0
  else if key = "right" then pan s (1 / 10) 0
  else s

/-- An input event the viewer reacts to after initialization: the two
handlers registered by `setup_events` (`draw.py` lines 161-166) are
the scroll handler and the key handler. -/
inductive Event where
  | scroll (e : ScrollEvent)
  | key (k : String)

/-- Dispatch of one input event to its handler. -/
def stepEvent (s : ViewerState) : Event → ViewerState
  | Event.scroll e => on_scroll s e
  | Event.key k => on_key_press s k

/-- The state after a sequence of input events. -/
def runEvents (s : ViewerState) (es : List Event) : ViewerState :=
  es.foldl stepEvent s

/-- The spec-level navigation operations, each mapped onto the source
method implementing it: `ZoomAtPoint` is the arithmetic of `on_scroll`
with an arbitrary factor, `ZoomCentered` is `zoom`, `Pan` is `pan`,
`Reset` is `reset_view`. -/
inductive NavOp where
  | zoomAtPointOp (x y factor : ℚ)
  | zoomCenteredOp (factor : ℚ)
  | panOp (dx dy : ℚ)
  | resetOp

/-- Apply one navigation operation to the viewer state. -/
def applyOp (s : ViewerState) : NavOp → ViewerState
  | NavOp.zoomAtPointOp x y f => { s with current := zoomAtPoint s.current x y f }
  | NavOp.zoomCenteredOp f => zoom s f
  | NavOp.panOp dx dy => pan s dx dy
  | NavOp.resetOp => reset_view s

/-- The state after a sequence of navigation operations. -/
def runOps (s : ViewerState) (ops : List NavOp) : ViewerState :=
  ops.foldl applyOp s

/-- Every zoom factor appearing in the operation is strictly positive
(no condition on pans and resets). -/
def opFactorsPos : NavOp → Prop
  | NavOp.zoomAtPointOp _ _ f => 0 < f
  | NavOp.zoomCenteredOp f => 0 < f
  | NavOp.panOp _ _ => True
  | NavOp.resetOp => True

instance (op : NavOp) : Decidable (opFactorsPos op) := by
  cases op with
  | zoomAtPointOp x y f => exact inferInstanceAs (Decidable (0 < f))
  | zoomCenteredOp f => exact inferInstanceAs (Decidable (0 < f))
  | panOp dx dy => exact inferInstanceAs (Decidable True)
  | resetOp => exact inferInstanceAs (Decidable True)

/-- A rectangle row `(x_start, x_end, y_start, y_end)` as extracted from a
spreadsheet layer by `read_excel_data`. -/
structure Rect where
  x_start : ℚ
  x_end : ℚ
  y_start : ℚ
  y_end : ℚ
deriving Repr, DecidableEq

/-- The warning-level conditions printed by the loaders
(`draw.py` lines 26-29 and 56-58): empty wall layer, empty slab layer,
empty sensor layer. They are printed diagnostics, not raised errors:
in every case the function goes on to return its data. -/
inductive LoadWarning where
  | emptyWallData
  | emptySlabData
  | emptySensorData
deriving Repr, DecidableEq

/-- The result of `read_excel_data` on a successfully read file: the
emitted warnings together with the returned tuple
`(wall_data, slab1_data, stair_data)`. -/
structure ExcelLoadResult where
  warnings : List LoadWarning
  wall_data : List Rect
  slab1_data : List Rect
  stair_data : Option (List Rect)
deriving Repr, DecidableEq

/-- The data-validation and return logic of `read_excel_data`
(`draw.py` lines 17-31), taking the coordinate rows already extracted
from the `wall` and `slab1` sheets (the pandas slicing of header rows
and columns is the upstream part of lines 22-23). An empty required
layer only triggers a printed warning; the data — empty or not — is
returned unchanged, and the third component (stairs) is always
`None` with no check attached. -/
def read_excel_data (wall_rows slab1_rows : List Rect) : ExcelLoadResult :=
  { warnings :=
      (if wall_rows.isEmpty then [LoadWarning.emptyWallData] else []) ++
        (if slab1_rows.isEmpty then [LoadWarning.emptySlabData] else [])
    wall_data := wall_rows
    slab1_data := slab1_rows
    stair_data := none }

/-- The result of `read_sensor_data` on a successfully read file. -/
structure SensorLoadResult where
  warnings : List LoadWarning
  sensor_data : List (ℚ × ℚ)
deriving Repr, DecidableEq

/-- The data-validation and return logic of `read_sensor_data`
(`draw.py` lines 50-60): an empty sensor layer triggers a printed
warning only; the data is returned unchanged. -/
def read_sensor_data (sensor_rows : List (ℚ × ℚ)) : SensorLoadResult :=
  { warnings := if sensor_rows.isEmpty then [LoadWarning.emptySensorData] else []
    sensor_data := sensor_rows }

/-- The gating check of `main` (`draw.py` line 333): drawing proceeds
exactly when both required loads returned data (`is not None`); the
sensor data — possibly `None` after a failed or absent sheet — is not
consulted. -/
def main_can_draw (wall_data slab1_data : Option (List Rect))
    (sensor_data : Option (List (ℚ × ℚ))) : Bool :=
  wall_data.isSome && slab1_data.isSome

/-! ## Helper lemmas -/

/-- Zooming with a positive factor preserves the positivity invariant:
the new extent is the old extent times the factor. -/
theorem posInv_zoomBounds {b : ViewBounds} {f : ℚ} (h : b.posInv) (hf : 0 < f) :
    (zoomBounds b f).posInv := by
  obtain ⟨hx, hy⟩ := h
  have hxw : 0 < (b.x_max - b.x_min) * f := mul_pos (by linarith) hf
  have hyw : 0 < (b.y_max - b.y_min) * f := mul_pos (by linarith) hf
  constructor <;> simp only [zoomBounds] <;> linarith

/-- Cursor-anchored zooming with a positive factor preserves the
positivity invariant: the relative-position terms cancel and the new
extent is again the old extent times the factor. -/
theorem posInv_zoomAtPoint {b : ViewBounds} (x y : ℚ) {f : ℚ} (h : b.posInv) (hf : 0 < f) :
    (zoomAtPoint b x y f).posInv := by
  obtain ⟨hx, hy⟩ := h
  have hxw : 0 < (b.x_max - b.x_min) * f := mul_pos (by linarith) hf
  have hyw : 0 < (b.y_max - b.y_min) * f := mul_pos (by linarith) hf
  constructor
  · show x - (b.x_max - b.x_min) * f * (1 - (b.x_max - x) / (b.x_max - b.x_min)) <
      x + (b.x_max - b.x_min) * f * ((b.x_max - x) / (b.x_max - b.x_min))
    have key : x + (b.x_max - b.x_min) * f * ((b.x_max - x) / (b.x_max - b.x_min)) -
        (x - (b.x_max - b.x_min) * f * (1 - (b.x_max - x) / (b.x_max - b.x_min))) =
        (b.x_max - b.x_min) * f := by ring
    linarith
  · show y - (b.y_max - b.y_min) * f * (1 - (b.y_max - y) / (b.y_max - b.y_min)) <
      y + (b.y_max - b.y_min) * f * ((b.y_max - y) / (b.y_max - b.y_min))
    have key : y + (b.y_max - b.y_min) * f * ((b.y_max - y) / (b.y_max - b.y_min)) -
        (y - (b.y_max - b.y_min) * f * (1 - (b.y_max - y) / (b.y_max - b.y_min))) =
        (b.y_max - b.y_min) * f := by ring
    linarith

/-- Panning preserves the positivity invariant: both edges move by the
same amount. -/
theorem posInv_panBounds {b : ViewBounds} (dx dy : ℚ) (h : b.posInv) :
    (panBounds b dx dy).posInv := by
  obtain ⟨hx, hy⟩ := h
  constructor <;> simp only [panBounds] <;> linarith

/-- Every factor the scroll handler can select is strictly positive. -/
theorem scrollScaleFactor_pos (btn : ScrollButton) : 0 < scrollScaleFactor btn := by
  cases btn <;> norm_num [scrollScaleFactor]

/-- Each navigation operation whose zoom factor (if any) is positive
preserves state validity. -/
theorem validState_applyOp {s : ViewerState} {op : NavOp} (hs : validState s)
    (hop : opFactorsPos op) : validState (applyOp s op) := by
  obtain ⟨hc, hh⟩ := hs
  cases op with
  | zoomAtPointOp x y f => exact ⟨posInv_zoomAtPoint x y hc hop, hh⟩
  | zoomCenteredOp f => exact ⟨posInv_zoomBounds hc hop, hh⟩
  | panOp dx dy => exact ⟨posInv_panBounds dx dy hc, hh⟩
  | resetOp => exact ⟨hh, hh⟩

/-- Every input event preserves state validity: the scroll handler only
ever applies positive factors, and the key handler only calls reset,
`zoom 1.2`, `zoom 0.8` or pans. -/
theorem validState_stepEvent {s : ViewerState} (hs : validState s) (e : Event) :
    validState (stepEvent s e) := by
  obtain ⟨hc, hh⟩ := hs
  cases e with
  | scroll e =>
    show validState (on_scroll s e)
    unfold on_scroll
    split
    · exact ⟨hc, hh⟩
    · match e.xdata, e.ydata with
      | some x, some y =>
        exact ⟨posInv_zoomAtPoint x y hc (scrollScaleFactor_pos e.button), hh⟩
      | some x, none => exact ⟨hc, hh⟩
      | none, _ => exact ⟨hc, hh⟩
  | key k =>
    show validState (on_key_press s k)
    unfold on_key_press
    split
    · exact ⟨hh, hh⟩
    split
    · exact ⟨posInv_zoomBounds hc (by norm_num), hh⟩
    split
    · exact ⟨posInv_zoomBounds hc (by norm_num), hh⟩
    split
    · exact ⟨posInv_panBounds _ _ hc, hh⟩
    split
    · exact ⟨posInv_panBounds _ _ hc, hh⟩
    split
    · exact ⟨posInv_panBounds _ _ hc, hh⟩
    split
    · exact ⟨posInv_panBounds _ _ hc, hh⟩
    · exact ⟨hc, hh⟩

/-- Validity is preserved along any event sequence. -/
theorem validState_runEvents {s : ViewerState} (hs : validState s) (es : List Event) :
    validState (runEvents s es) := by
  induction es generalizing s with
  | nil => exact hs
  | cons e es ih => exact ih (validState_stepEvent hs e)

/-- Validity is preserved along any operation sequence whose zoom
factors are all positive. -/
theorem validState_runOps {s : ViewerState} (hs : validState s) {ops : List NavOp}
    (hops : ∀ op ∈ ops, opFactorsPos op) : validState (runOps s ops) := by
  induction ops generalizing s with
  | nil => exact hs
  | cons op ops ih =>
    exact ih (validState_applyOp hs (hops op (List.mem_cons_self op ops)))
      (fun o ho => hops o (List.mem_cons_of_mem op ho))

/-- No input event writes the stored home limits. -/
theorem home_stepEvent (s : ViewerState) (e : Event) : (stepEvent s e).home = s.home := by
  cases e with
  | scroll e =>
    show (on_scroll s e).home = s.home
    unfold on_scroll
    split
    · rfl
    · match e.xdata, e.ydata with
      | some x, some y => rfl
      | some x, none => rfl
      | none, _ => rfl
  | key k =>
    show (on_key_press s k).home = s.home
    unfold on_key_press
    split
    · rfl
    split
    · rfl
    split
    · rfl
    split
    · rfl
    split
    · rfl
    split
    · rfl
    split
    · rfl
    · rfl

/-- The stored home limits survive any event sequence unchanged. -/
theorem home_runEvents (s : ViewerState) (es : List Event) :
    (runEvents s es).home = s.home := by
  induction es generalizing s with
  | nil => rfl
  | cons e es ih => rw [runEvents, List.foldl_cons, ← runEvents, ih, home_stepEvent]

/-! ## Claim theorems -/

/-- C1: For every view window with positive width and height and every
factor > 0, the cursor-anchored zoom of `on_scroll` yields a window
whose width and height are the old ones times the factor and in which
the anchor keeps its exact fractional position
`(x_max - anchorX) / width` (and the y analogue); in particular on
`(0,100,0,100)` with anchor `(20,20)` and factor `1/2` it yields
`(10,60,10,60)`. -/
theorem C1_zoomAtPoint_anchor_fixed (b : ViewBounds) (ax ay f : ℚ)
    (hw : 0 < b.width) (hh : 0 < b.height) (hf : 0 < f) :
    (zoomAtPoint b ax ay f).width = b.width * f ∧
    (zoomAtPoint b ax ay f).height = b.height * f ∧
    ((zoomAtPoint b ax ay f).x_max - ax) / (zoomAtPoint b ax ay f).width
      = (b.x_max - ax) / b.width ∧
    ((zoomAtPoint b ax ay f).y_max - ay) / (zoomAtPoint b ax ay f).height
      = (b.y_max - ay) / b.height ∧
    zoomAtPoint ⟨0, 100, 0, 100⟩ 20 20 (1 / 2) = ⟨10, 60, 10, 60⟩ := by
  have hwx : 0 < b.x_max - b.x_min := by
    have := hw; unfold ViewBounds.width at this; linarith
  have hhy : 0 < b.y_max - b.y_min := by
    have := hh; unfold ViewBounds.height at this; linarith
  have hwx0 : b.x_max - b.x_min ≠ 0 := ne_of_gt hwx
  have hhy0 : b.y_max - b.y_min ≠ 0 := ne_of_gt hhy
  have hf0 : f ≠ 0 := ne_of_gt hf
  have hW : (zoomAtPoint b ax ay f).width = b.width * f := by
    unfold zoomAtPoint ViewBounds.width
    ring
  have hH : (zoomAtPoint b ax ay f).height = b.height * f := by
    unfold zoomAtPoint ViewBounds.height
    ring
  have hconc : zoomAtPoint ⟨0, 100, 0, 100⟩ 20 20 (1 / 2) = ⟨10, 60, 10, 60⟩ := by
    ext <;> norm_num [zoomAtPoint]
  refine ⟨hW, hH, ?_, ?_, hconc⟩
  · rw [hW]
    simp only [zoomAtPoint, ViewBounds.width]
    field_simp
    ring
  · rw [hH]
    simp only [zoomAtPoint, ViewBounds.height]
    field_simp
    ring

/-- C1 witness: the theorem applied at the concrete window
`(0,100,0,100)`, anchor `(20,20)`, factor `1/2`. -/
theorem C1_zoomAtPoint_anchor_fixed_witness :
    (zoomAtPoint ⟨0, 100, 0, 100⟩ 20 20 (1 / 2)).width
      = (ViewBounds.mk 0 100 0 100).width * (1 / 2) ∧
    zoomAtPoint ⟨0, 100, 0, 100⟩ 20 20 (1 / 2) = ⟨10, 60, 10, 60⟩ :=
  ⟨(C1_zoomAtPoint_anchor_fixed ⟨0, 100, 0, 100⟩ 20 20 (1 / 2)
      (by norm_num [ViewBounds.width]) (by norm_num [ViewBounds.height])
      (by norm_num)).1,
   (C1_zoomAtPoint_anchor_fixed ⟨0, 100, 0, 100⟩ 20 20 (1 / 2)
      (by norm_num [ViewBounds.width]) (by norm_num [ViewBounds.height])
      (by norm_num)).2.2.2.2⟩

/-- C2 counterexample: the claim says a zoom with factor ≤ 0 fails with
`InvalidZoomError` and leaves the bounds bit-identical; in the code
`zoom(0)` silently collapses `(0,100,0,100)` to the degenerate point
window `(50,50,50,50)`, and `zoom(-1)` flips it to `(100,0,100,0)` —
the state is mutated and nothing is rejected. -/
theorem C2_no_rejection_counterexample :
    (zoom ⟨⟨0, 100, 0, 100⟩, ⟨0, 100, 0, 100⟩⟩ 0).current ≠ ⟨0, 100, 0, 100⟩ ∧
    (zoom ⟨⟨0, 100, 0, 100⟩, ⟨0, 100, 0, 100⟩⟩ 0).current = ⟨50, 50, 50, 50⟩ ∧
    (zoom ⟨⟨0, 100, 0, 100⟩, ⟨0, 100, 0, 100⟩⟩ (-1)).current = ⟨100, 0, 100, 0⟩ := by
  norm_num [zoom, zoomBounds, ViewBounds.ext_iff]

/-- C2 amended: the code performs no factor validation at all — `zoom`
applies any factor unconditionally (factor 0 collapses the window to
its center point on both axes), and no `InvalidZoomError` exists; the
scroll handler, however, can only ever select the strictly positive
factors `10/11`, `11/10` or `1`, so a non-positive factor is
unreachable through scrolling. -/
theorem C2_zoom_applies_factor_unconditionally (s : ViewerState) (f : ℚ)
    (btn : ScrollButton) :
    (zoom s f).current = zoomBounds s.current f ∧
    (zoom s 0).current.x_min = (zoom s 0).current.x_max ∧
    (zoom s 0).current.y_min = (zoom s 0).current.y_max ∧
    0 < scrollScaleFactor btn := by
  refine ⟨rfl, ?_, ?_, scrollScaleFactor_pos btn⟩ <;>
    simp only [zoom, zoomBounds] <;> ring

/-- C3 counterexample: the claim quantifies over all sequences of the
four navigation operations; since the code never validates zoom
factors, the one-element sequence `ZoomCentered(0)` starting from the
valid state with both windows `(0,100,0,100)` reaches a degenerate
window violating the positivity invariant. -/
theorem C3_invariant_counterexample :
    validState ⟨⟨0, 100, 0, 100⟩, ⟨0, 100, 0, 100⟩⟩ ∧
    ¬ (runOps ⟨⟨0, 100, 0, 100⟩, ⟨0, 100, 0, 100⟩⟩
        [NavOp.zoomCenteredOp 0]).current.posInv := by
  norm_num [validState, ViewBounds.posInv, runOps, applyOp, zoom, zoomBounds,
    List.foldl_cons, List.foldl_nil]

/-- C3 amended: from any valid state, every operation sequence whose
zoom factors are all strictly positive preserves the positivity
invariant, and every sequence of actual input events (scroll wheel
and key presses — the only entry points the program exposes, all of
whose factors are positive) preserves it as well. -/
theorem C3_invariant_positive_factors (s : ViewerState) (ops : List NavOp)
    (es : List Event) (hs : validState s)
    (hops : ∀ op ∈ ops, opFactorsPos op) :
    validState (runOps s ops) ∧ validState (runEvents s es) :=
  ⟨validState_runOps hs hops, validState_runEvents hs es⟩

/-- C3 witness: the amended theorem applied to a concrete valid state,
a concrete zoom–pan–reset sequence and a concrete event sequence. -/
theorem C3_invariant_positive_factors_witness :
    validState (runOps ⟨⟨0, 100, 0, 100⟩, ⟨0, 100, 0, 100⟩⟩
      [NavOp.zoomCenteredOp 2, NavOp.panOp 1 1, NavOp.resetOp]) ∧
    validState (runEvents ⟨⟨0, 100, 0, 100⟩, ⟨0, 100, 0, 100⟩⟩
      [Event.key "+", Event.key "r"]) :=
  C3_invariant_positive_factors ⟨⟨0, 100, 0, 100⟩, ⟨0, 100, 0, 100⟩⟩
    [NavOp.zoomCenteredOp 2, NavOp.panOp 1 1, NavOp.resetOp]
    [Event.key "+", Event.key "r"]
    (by norm_num [validState, ViewBounds.posInv])
    (by
      intro op hop
      simp only [List.mem_cons, List.not_mem_nil, or_false] at hop
      rcases hop with rfl | rfl | rfl <;> norm_num [opFactorsPos])

/-- C4: after any sequence of input events, `reset_view` sets the live
window to exactly the stored home window of the initial state, and
resetting twice equals resetting once. -/
theorem C4_reset_restores_home (s : ViewerState) (es : List Event) :
    (reset_view (runEvents s es)).current = s.home ∧
    (reset_view (runEvents s es)).home = s.home ∧
    reset_view (reset_view (runEvents s es)) = reset_view (runEvents s es) := by
  refine ⟨?_, ?_, rfl⟩ <;> simp only [reset_view] <;> exact home_runEvents s es

/-- C5: `zoom f` followed by `zoom (1/f)` restores the state exactly,
for every factor f > 0 (the rational model makes the round trip
exact). -/
theorem C5_zoom_roundtrip (s : ViewerState) (f : ℚ) (hf : 0 < f) :
    zoom (zoom s f) (1 / f) = s := by
  have hf0 : f ≠ 0 := ne_of_gt hf
  ext <;> simp only [zoom, zoomBounds] <;> field_simp <;> ring

/-- C5 witness: the round trip at factor 2 on a concrete state. -/
theorem C5_zoom_roundtrip_witness :
    zoom (zoom ⟨⟨0, 100, 0, 100⟩, ⟨0, 100, 0, 100⟩⟩ 2) (1 / 2)
      = ⟨⟨0, 100, 0, 100⟩, ⟨0, 100, 0, 100⟩⟩ :=
  C5_zoom_roundtrip ⟨⟨0, 100, 0, 100⟩, ⟨0, 100, 0, 100⟩⟩ 2 (by norm_num)

/-- C6: `pan dx dy` shifts both x edges by `dx * width` and both y edges
by `dy * height`, leaves width and height unchanged, and
`pan (-dx) (-dy)` undoes it exactly. -/
theorem C6_pan_translation (s : ViewerState) (dx dy : ℚ) :
    (pan s dx dy).current.x_min = s.current.x_min + dx * s.current.width ∧
    (pan s dx dy).current.x_max = s.current.x_max + dx * s.current.width ∧
    (pan s dx dy).current.y_min = s.current.y_min + dy * s.current.height ∧
    (pan s dx dy).current.y_max = s.current.y_max + dy * s.current.height ∧
    (pan s dx dy).current.width = s.current.width ∧
    (pan s dx dy).current.height = s.current.height ∧
    pan (pan s dx dy) (-dx) (-dy) = s := by
  refine ⟨rfl, rfl, rfl, rfl, ?_, ?_, ?_⟩
  · simp only [pan, panBounds, ViewBounds.width]; ring
  · simp only [pan, panBounds, ViewBounds.height]; ring
  · ext <;> simp only [pan, panBounds] <;> ring

/-- C7: `set_initial_view`, called as in `setup_plot` where the live
window still equals the stored home window, produces a live window of
width `home.width * zoom_level` and height `home.height * zoom_level`
centered exactly at the given center, and overwrites home with that
same window, so a later reset returns to the overridden view. -/
theorem C7_initial_view_override (s : ViewerState) (cx cy z : ℚ)
    (hcall : s.current = s.home) (_hz : 0 < z) :
    (set_initial_view s (cx, cy) z).current.width = s.home.width * z ∧
    (set_initial_view s (cx, cy) z).current.height = s.home.height * z ∧
    ((set_initial_view s (cx, cy) z).current.x_min
      + (set_initial_view s (cx, cy) z).current.x_max) / 2 = cx ∧
    ((set_initial_view s (cx, cy) z).current.y_min
      + (set_initial_view s (cx, cy) z).current.y_max) / 2 = cy ∧
    (set_initial_view s (cx, cy) z).home = (set_initial_view s (cx, cy) z).current := by
  rw [← hcall]
  refine ⟨?_, ?_, ?_, ?_, rfl⟩ <;>
    simp only [set_initial_view, ViewBounds.width, ViewBounds.height] <;> ring

/-- C7 witness: the override scenario of the spec — fitted home
`(10000,50000,0,30000)` (width 40000, height 30000, centered at
`(30000,15000)`), override center `(33950,20000)`, zoom `1/2`. -/
theorem C7_initial_view_override_witness :
    (set_initial_view ⟨⟨10000, 50000, 0, 30000⟩, ⟨10000, 50000, 0, 30000⟩⟩
        (33950, 20000) (1 / 2)).current.width
      = (ViewBounds.mk 10000 50000 0 30000).width * (1 / 2) ∧
    (set_initial_view ⟨⟨10000, 50000, 0, 30000⟩, ⟨10000, 50000, 0, 30000⟩⟩
        (33950, 20000) (1 / 2)).home
      = (set_initial_view ⟨⟨10000, 50000, 0, 30000⟩, ⟨10000, 50000, 0, 30000⟩⟩
        (33950, 20000) (1 / 2)).current :=
  ⟨(C7_initial_view_override ⟨⟨10000, 50000, 0, 30000⟩, ⟨10000, 50000, 0, 30000⟩⟩
      33950 20000 (1 / 2) rfl (by norm_num)).1,
   (C7_initial_view_override ⟨⟨10000, 50000, 0, 30000⟩, ⟨10000, 50000, 0, 30000⟩⟩
      33950 20000 (1 / 2) rfl (by norm_num)).2.2.2.2⟩

/-- C8: none of the navigation handlers other than the initializer and
reset touches the stored home window — the scroll handler, the
centered zoom, the pan, the spec-level cursor-anchored zoom operation
and the whole key handler all leave it unchanged. -/
theorem C8_home_untouched (s : ViewerState) (e : ScrollEvent) (f dx dy : ℚ)
    (x y fac : ℚ) (k : String) :
    (on_scroll s e).home = s.home ∧
    (zoom s f).home = s.home ∧
    (pan s dx dy).home = s.home ∧
    (applyOp s (NavOp.zoomAtPointOp x y fac)).home = s.home ∧
    (on_key_press s k).home = s.home :=
  ⟨home_stepEvent s (Event.scroll e), rfl, rfl, rfl,
   home_stepEvent s (Event.key k)⟩

/-- C9: an empty required layer (walls or slabs) only produces the
corresponding warning while the loader still returns the data, so the
caller may proceed; the stair layer is returned as `None` with no
check at all; the sensor loader returns its data too, and `main`
proceeds to draw based only on the two required layers, regardless of
the sensor data. -/
theorem C9_empty_layers_warn_not_fail (wall slab1 : List Rect)
    (sensor : List (ℚ × ℚ)) (sd sd2 : Option (List (ℚ × ℚ))) :
    (read_excel_data wall slab1).wall_data = wall ∧
    (read_excel_data wall slab1).slab1_data = slab1 ∧
    (LoadWarning.emptyWallData ∈ (read_excel_data wall slab1).warnings ↔ wall = []) ∧
    (LoadWarning.emptySlabData ∈ (read_excel_data wall slab1).warnings ↔ slab1 = []) ∧
    (read_excel_data wall slab1).stair_data = none ∧
    (read_sensor_data sensor).sensor_data = sensor ∧
    main_can_draw (some wall) (some slab1) sd = true ∧
    main_can_draw (some wall) (some slab1) sd = main_can_draw (some wall) (some slab1) sd2 := by
  refine ⟨rfl, rfl, ?_, ?_, rfl, rfl, rfl, rfl⟩ <;>
    rcases wall with _ | ⟨r, rs⟩ <;> rcases slab1 with _ | ⟨q, qs⟩ <;>
      simp [read_excel_data]

/-- C10: a scroll event outside the plot axes, or one whose world data
coordinates are unavailable, leaves the state exactly as it was. -/
theorem C10_scroll_ignored_outside (s : ViewerState) (e : ScrollEvent)
    (h : e.inaxes = false ∨ e.xdata = none ∨ e.ydata = none) :
    on_scroll s e = s := by
  obtain ⟨inax, xd, yd, btn⟩ := e
  unfold on_scroll
  rcases h with h | h | h <;> simp only at h <;> subst h
  · simp
  · cases yd <;> simp
  · cases xd <;> simp

/-- C10 witness: a concrete out-of-axes scroll event is ignored. -/
theorem C10_scroll_ignored_outside_witness :
    on_scroll ⟨⟨0, 100, 0, 100⟩, ⟨0, 100, 0, 100⟩⟩
        ⟨false, some 5, some 5, ScrollButton.up⟩
      = ⟨⟨0, 100, 0, 100⟩, ⟨0, 100, 0, 100⟩⟩ :=
  C10_scroll_ignored_outside ⟨⟨0, 100, 0, 100⟩, ⟨0, 100, 0, 100⟩⟩
    ⟨false, some 5, some 5, ScrollButton.up⟩ (Or.inl rfl)
